import Mathlib

/-!
A shallow embedding of the browser-side form handler in src/app.js of the
precision-farming frontend: payload construction with numeric coercion of
every field outside the fixed text-field set, the submit handler's three
response paths (success, server-reported error, transport/parse failure),
result rendering, and the reset action.

JavaScript numbers are modelled as rationals plus a NaN sentinel; browser
builtins (parseFloat, Number.prototype.toFixed, JSON.stringify) are not
repository code and are modelled from their ECMAScript behaviour, as noted
on each such definition.  The DOM is modelled as an explicit record of the
element states the script touches, and the handler additionally returns the
ordered trace of its observable steps.
-/

/-- A JavaScript number: the NaN sentinel or a finite value, modelled as a
rational. -/
inductive JSNum where
  | nan : JSNum
  | fin : ℚ → JSNum
  deriving DecidableEq, Repr

/-- A JavaScript value as it occurs in the request payload: a number or a
string. -/
inductive JSVal where
  | num : JSNum → JSVal
  | str : String → JSVal
  deriving DecidableEq, Repr

/-- Modelled from the ECMAScript builtin parseFloat (not repository code):
skip leading whitespace, read an optional sign, then a decimal significand
of the form digits, digits.digits or .digits; if no digit can be read the
result is NaN.  Exponent suffixes and Infinity are omitted from the model;
trailing garbage is ignored, as in the builtin. -/
def takeDigits : List Char → List Char × List Char
  | [] => ([], [])
  | c :: cs =>
    if c.isDigit then
      let (ds, rest) := takeDigits cs
      (c :: ds, rest)
    else
      ([], c :: cs)

/-- Numeric value of a list of decimal digit characters. -/
def digitsToNat (ds : List Char) : ℕ :=
  ds.foldl (fun n c => 10 * n + (c.toNat - 48)) 0

/-- Modelled from the ECMAScript builtin parseFloat (see module docstring):
returns NaN exactly when no decimal digit can be read after optional
whitespace and sign. -/
def parseFloat (s : String) : JSNum :=
  let cs := s.toList.dropWhile (fun c => c == ' ' || c == '\t' || c == '\n' || c == '\r')
  let signAndRest : Bool × List Char :=
    match cs with
    | '-' :: rest => (true, rest)
    | '+' :: rest => (false, rest)
    | _ => (false, cs)
  let (intDs, afterInt) := takeDigits signAndRest.2
  let fracDs : List Char :=
    match afterInt with
    | '.' :: rest => (takeDigits rest).1
    | _ => []
  if intDs = [] ∧ fracDs = [] then
    JSNum.nan
  else
    let mag : ℚ := (digitsToNat intDs : ℚ) + (digitsToNat fracDs : ℚ) / (10 : ℚ) ^ fracDs.length
    JSNum.fin (if signAndRest.1 then -mag else mag)

/-- Floor of a rational, computed by flooring integer division. -/
def ratFloor (x : ℚ) : ℤ :=
  Int.fdiv x.num (x.den : ℤ)

/-- Round to the nearest integer, ties toward positive infinity, as the
ECMAScript toFixed specification picks the larger candidate. -/
def roundTiesUp (x : ℚ) : ℤ :=
  ratFloor (x + 1 / 2)

/-- Modelled from the ECMAScript builtin Number.prototype.toFixed (not
repository code) on finite values: render x with exactly d digits after the
decimal point, rounding ties up; negative zero is rendered without the
sign, a simplification not exercised by any theorem below. -/
def ratToFixed (x : ℚ) (d : ℕ) : String :=
  let n := roundTiesUp (x * (10 : ℚ) ^ d)
  let m := n.natAbs
  let ip := m / 10 ^ d
  let fp := m % 10 ^ d
  let fpStr := toString fp
  let pad := String.mk (List.replicate (d - fpStr.length) '0')
  (if n < 0 then "-" else "") ++ toString ip ++ (if d = 0 then "" else "." ++ pad ++ fpStr)

/-- toFixed on a JavaScript number: NaN renders as the string NaN. -/
def JSNum.toFixed : JSNum → ℕ → String
  | JSNum.nan, _ => "NaN"
  | JSNum.fin q, d => ratToFixed q d

/-- The fixed text-field set of src/app.js lines 12-13: field names kept as
strings rather than numerically coerced. -/
def textFieldSet : List String :=
  ["region", "crop_type", "irrigation_type", "fertilizer_type", "crop_disease_status"]

/-- Coercion of one form entry, from src/app.js lines 11-17: every key other
than the five text fields is parsed with parseFloat, the text fields pass
through unchanged.  The parse function is a parameter so that statements can
quantify over it; the modelled parseFloat above instantiates it. -/
def coerceField (pf : String → JSNum) (key value : String) : JSVal :=
  if key ≠ "region" ∧ key ≠ "crop_type" ∧ key ≠ "irrigation_type" ∧
      key ≠ "fertilizer_type" ∧ key ≠ "crop_disease_status" then
    JSVal.num (pf value)
  else
    JSVal.str value

/-- Look a key up in a JavaScript-object model (first match; keys are unique
by construction of setKey). -/
def getKey {α : Type} : List (String × α) → String → Option α
  | [], _ => none
  | (k, v) :: rest, key => if k = key then some v else getKey rest key

/-- JavaScript property assignment obj[key] = v: overwrite in place when the
key is present, otherwise append, preserving insertion order. -/
def setKey {α : Type} : List (String × α) → String → α → List (String × α)
  | [], key, v => [(key, v)]
  | (k, w) :: rest, key, v =>
    if k = key then (k, v) :: rest else (k, w) :: setKey rest key v

/-- The request payload built by the submit handler from the form entries,
src/app.js lines 7-18: an empty object filled by assigning each coerced
entry in order. -/
def buildPayload (pf : String → JSNum) (entries : List (String × String)) :
    List (String × JSVal) :=
  entries.foldl (fun data kv => setKey data kv.1 (coerceField pf kv.1 kv.2)) []

/-- A JSON value as produced by serialization; JSON has no NaN. -/
inductive JsonVal where
  | null : JsonVal
  | jnum : ℚ → JsonVal
  | jstr : String → JsonVal
  deriving DecidableEq, Repr

/-- Whether a JSON value is a number. -/
def JsonVal.isNumber : JsonVal → Bool
  | JsonVal.jnum _ => true
  | _ => false

/-- Modelled from the ECMAScript builtin JSON.stringify (not repository
code), restricted to the flat string/number objects this script builds:
non-finite numbers, in particular NaN, serialize as null. -/
def toJson : JSVal → JsonVal
  | JSVal.num JSNum.nan => JsonVal.null
  | JSVal.num (JSNum.fin q) => JsonVal.jnum q
  | JSVal.str s => JsonVal.jstr s

/-- The JSON value transmitted for a given payload field once the payload is
serialized as the request body. -/
def serializedField (data : List (String × JSVal)) (key : String) : Option JsonVal :=
  (getKey data key).map toJson

/-- Escape a string for a JSON string literal (quote and backslash; control
characters do not occur in the values used here). -/
def escapeJson (s : String) : String :=
  s.toList.foldl
    (fun acc c =>
      acc ++ (if c = '"' then "\\\"" else if c = '\\' then "\\\\" else String.singleton c))
    ""

/-- Drop trailing zero digits of a fixed-point rendering, and a trailing
decimal point once bare. -/
def stripZeros (s : String) : String :=
  let cs := s.toList.reverse.dropWhile (fun c => c == '0')
  let cs : List Char :=
    match cs with
    | '.' :: rest => rest
    | other => other
  String.mk cs.reverse

/-- Modelled rendering of a finite JavaScript number in JSON output:
integers print without a decimal point, other values as a trimmed
fixed-point expansion (exact for every terminating decimal of at most
twenty places; no theorem below depends on this branch). -/
def finToString (q : ℚ) : String :=
  if q.den = 1 then toString q.num else stripZeros (ratToFixed q 20)

/-- Modelled from JSON.stringify: print one JSON value. -/
def stringifyJson : JsonVal → String
  | JsonVal.null => "null"
  | JsonVal.jnum q => finToString q
  | JsonVal.jstr s => "\"" ++ escapeJson s ++ "\""

/-- Modelled from JSON.stringify: the serialized request body sent by the
fetch call of src/app.js line 31, body = JSON.stringify(data). -/
def stringify (data : List (String × JSVal)) : String :=
  "\x7b" ++
    String.intercalate ","
      (data.map (fun kv => "\"" ++ escapeJson kv.1 ++ "\":" ++ stringifyJson (toJson kv.2))) ++
  "\x7d"

/-- The prediction-result object read by displayResults, src/app.js
lines 48-75 and spec section 3. -/
structure Predictions where
  water_requirement_mm_per_day : JSNum
  fertilizer_requirement_kg_per_week : JSNum
  expected_yield_kg_per_hectare : JSNum
  irrigation_recommendation : String
  fertilizer_recommendation : String
  yield_optimization_tips : List String
  deriving DecidableEq, Repr

/-- The parsed response object of src/app.js line 34: boolean success flag,
predictions on success, error text on failure (spec section 6). -/
structure RespResult where
  success : Bool
  predictions : Predictions
  error : String
  deriving DecidableEq, Repr

/-- Outcome of the awaited fetch plus response.json() pair: either a parsed
object, or a rejection (transport error or unparsable body) carrying the
thrown error's message. -/
inductive FetchOutcome where
  | ok : RespResult → FetchOutcome
  | fail : String → FetchOutcome
  deriving DecidableEq, Repr

/-- The DOM state the script touches: the display style of the loading
indicator and results region, the text content of the five result elements,
the list-item texts of the tips list, the current form field values, the
log of alert calls, and the element scrolled into view. -/
structure DOMState where
  loadingDisplay : String
  resultsDisplay : String
  waterResult : String
  fertilizerResult : String
  yieldResult : String
  waterRec : String
  fertilizerRec : String
  tipsList : List String
  formValues : List (String × String)
  alerts : List String
  scrolledTo : Option String
  deriving DecidableEq, Repr

/-- One observable step of the handler, in execution order. -/
inductive Step where
  | preventDefault : Step
  | showLoading : Step
  | hideResults : Step
  | fetchRequest : List (String × JSVal) → Step
  | renderResults : Predictions → Step
  | alertShown : String → Step
  | hideLoading : Step
  | formReset : Step
  deriving DecidableEq, Repr

/-- displayResults, src/app.js lines 48-75: write the three fixed-decimal
numbers and the two recommendation texts, clear the tips list and append
one item per tip in order, then reveal the results region and scroll to
it. -/
def displayResults (predictions : Predictions) (dom : DOMState) : DOMState :=
  let dom := { dom with waterResult := predictions.water_requirement_mm_per_day.toFixed 2 }
  let dom := { dom with fertilizerResult := predictions.fertilizer_requirement_kg_per_week.toFixed 2 }
  let dom := { dom with yieldResult := predictions.expected_yield_kg_per_hectare.toFixed 0 }
  let dom := { dom with waterRec := predictions.irrigation_recommendation }
  let dom := { dom with fertilizerRec := predictions.fertilizer_recommendation }
  let dom := { dom with tipsList := ([] : List String) }
  let dom := { dom with
    tipsList := predictions.yield_optimization_tips.foldl (fun acc tip => acc ++ [tip]) dom.tipsList }
  let dom := { dom with resultsDisplay := "block" }
  { dom with scrolledTo := some "results" }

/-- The submit handler of src/app.js lines 3-46 as a pure function of the
form entries, the fetch outcome and the prior DOM state, returning the new
DOM state and the ordered trace of observable steps.  preventDefault is the
first statement; the payload is built, the loading indicator shown and the
results region hidden before the request; the try/catch/finally gives the
three paths, each ending by hiding the loading indicator. -/
def handleSubmit (pf : String → JSNum) (entries : List (String × String))
    (outcome : FetchOutcome) (dom : DOMState) : DOMState × List Step :=
  let data := buildPayload pf entries
  let dom := { dom with loadingDisplay := "block" }
  let dom := { dom with resultsDisplay := "none" }
  let pre : List Step :=
    [Step.preventDefault, Step.showLoading, Step.hideResults, Step.fetchRequest data]
  match outcome with
  | FetchOutcome.ok result =>
    if result.success then
      let dom := displayResults result.predictions dom
      ({ dom with loadingDisplay := "none" },
        pre ++ [Step.renderResults result.predictions, Step.hideLoading])
    else
      let msg := "Error: " ++ result.error
      ({ dom with alerts := dom.alerts ++ [msg], loadingDisplay := "none" },
        pre ++ [Step.alertShown msg, Step.hideLoading])
  | FetchOutcome.fail emsg =>
    let msg := "Failed to get predictions: " ++ emsg
    ({ dom with alerts := dom.alerts ++ [msg], loadingDisplay := "none" },
      pre ++ [Step.alertShown msg, Step.hideLoading])

/-- resetForm, src/app.js lines 77-80: restore every form field to its
default value (the defaults live in the HTML, outside this file, so they
are a parameter) and hide the results region.  No other state is touched
and no request is issued. -/
def resetForm (defaults : List (String × String)) (dom : DOMState) : DOMState × List Step :=
  let dom := { dom with formValues := defaults }
  ({ dom with resultsDisplay := "none" }, [Step.formReset, Step.hideResults])

/-- A DOM state before any interaction: everything hidden and empty. -/
def initialDOM : DOMState where
  loadingDisplay := "none"
  resultsDisplay := "none"
  waterResult := ""
  fertilizerResult := ""
  yieldResult := ""
  waterRec := ""
  fertilizerRec := ""
  tipsList := []
  formValues := []
  alerts := []
  scrolledTo := none

/-- The mocked successful predictions object of spec section 8. -/
def samplePredictions : Predictions where
  water_requirement_mm_per_day := JSNum.fin (5678 / 1000)
  fertilizer_requirement_kg_per_week := JSNum.fin (123 / 10)
  expected_yield_kg_per_hectare := JSNum.fin 4500
  irrigation_recommendation := "Drip irrigation"
  fertilizer_recommendation := "Apply nitrogen"
  yield_optimization_tips := ["Tip A", "Tip B"]

/-- The mocked server-reported failure of spec section 8. -/
def sampleFailure : RespResult where
  success := false
  predictions := samplePredictions
  error := "bad input"

/-- A mocked successful response carrying the sample predictions. -/
def sampleSuccess : RespResult where
  success := true
  predictions := samplePredictions
  error := ""

/-!  Helper lemmas about the object model and list folds. -/

theorem foldl_append_singleton {α : Type} (l acc : List α) :
    l.foldl (fun a t => a ++ [t]) acc = acc ++ l := by
  induction l generalizing acc with
  | nil => simp
  | cons x xs ih => simp [List.foldl_cons, ih]

theorem getKey_setKey_self {α : Type} (obj : List (String × α)) (key : String) (v : α) :
    getKey (setKey obj key v) key = some v := by
  induction obj with
  | nil => simp [setKey, getKey]
  | cons hd tl ih =>
    obtain ⟨k, w⟩ := hd
    by_cases h : k = key
    · simp [setKey, getKey, h]
    · simp [setKey, getKey, h, ih]

theorem getKey_setKey_ne {α : Type} (obj : List (String × α)) (key key' : String) (v : α)
    (h : key' ≠ key) : getKey (setKey obj key v) key' = getKey obj key' := by
  induction obj with
  | nil => simp [setKey, getKey, Ne.symm h]
  | cons hd tl ih =>
    obtain ⟨k, w⟩ := hd
    by_cases hk : k = key
    · subst hk
      simp [setKey, getKey, Ne.symm h]
    · simp only [setKey, if_neg hk, getKey]
      by_cases hk' : k = key'
      · simp [hk']
      · simp [hk', ih]

theorem getKey_append {α : Type} (l₁ l₂ : List (String × α)) (key : String) :
    getKey (l₁ ++ l₂) key =
      match getKey l₁ key with
      | some v => some v
      | none => getKey l₂ key := by
  induction l₁ with
  | nil => simp [getKey]
  | cons hd tl ih =>
    obtain ⟨k, w⟩ := hd
    by_cases h : k = key <;> simp [getKey, h, ih]

theorem getKey_foldl_setKey (pf : String → JSNum) (entries : List (String × String))
    (obj : List (String × JSVal)) (key : String) :
    getKey (entries.foldl (fun data kv => setKey data kv.1 (coerceField pf kv.1 kv.2)) obj) key =
      match getKey entries.reverse key with
      | some v => some (coerceField pf key v)
      | none => getKey obj key := by
  induction entries generalizing obj with
  | nil => simp [getKey]
  | cons hd tl ih =>
    obtain ⟨k, v⟩ := hd
    rw [List.foldl_cons, ih, List.reverse_cons, getKey_append]
    cases h : getKey tl.reverse key with
    | some w => simp
    | none =>
      by_cases hk : k = key
      · subst hk
        simp [getKey, getKey_setKey_self]
      · simp [getKey, hk, getKey_setKey_ne _ _ _ _ fun he => hk he.symm]

theorem getKey_buildPayload (pf : String → JSNum) (entries : List (String × String))
    (key : String) :
    getKey (buildPayload pf entries) key =
      (getKey entries.reverse key).map (fun v => coerceField pf key v) := by
  rw [buildPayload, getKey_foldl_setKey]
  cases h : getKey entries.reverse key <;> simp [getKey]

theorem getKey_of_mem_of_nodup {α : Type} {l : List (String × α)}
    (h : (l.map Prod.fst).Nodup) {key : String} {v : α} (hm : (key, v) ∈ l) :
    getKey l key = some v := by
  induction l with
  | nil => simp at hm
  | cons hd tl ih =>
    obtain ⟨k, w⟩ := hd
    rw [List.map_cons, List.nodup_cons] at h
    rcases List.mem_cons.mp hm with heq | hmem
    · injection heq with h1 h2
      subst h1
      subst h2
      simp [getKey]
    · have hne : k ≠ key := by
        intro he
        subst he
        exact h.1 (List.mem_map.mpr ⟨(k, v), hmem, rfl⟩)
      simp [getKey, hne, ih h.2 hmem]

theorem coerceField_eq_ite (pf : String → JSNum) (key value : String) :
    coerceField pf key value =
      if key ∈ textFieldSet then JSVal.str value else JSVal.num (pf value) := by
  by_cases h : key ∈ textFieldSet
  · rw [if_pos h]
    simp only [textFieldSet, List.mem_cons, List.mem_singleton, List.not_mem_nil, or_false] at h
    rcases h with h | h | h | h | h <;> subst h <;> simp [coerceField]
  · rw [if_neg h]
    simp only [textFieldSet, List.mem_cons, List.mem_singleton, List.not_mem_nil, or_false,
      not_or] at h
    simp [coerceField, h.1, h.2.1, h.2.2.1, h.2.2.2.1, h.2.2.2.2]

theorem getLast_append_pair {α : Type} (l : List α) (a b : α) :
    (l ++ [a, b]).getLast? = some b := by
  have h : l ++ [a, b] = (l ++ [a]) ++ [b] := by simp
  rw [h, List.getLast?_concat]

/-!  Claim theorems. -/

/-- Claim C1: for every form field whose name is outside the text-field set
the payload stores the floating-point parse of its string value, and for
every field inside that set the payload stores the string unchanged (form
fields assumed uniquely named; repeated names are settled by the
last-entry-wins theorem below). -/
theorem payload_coercion_per_field (pf : String → JSNum) (entries : List (String × String))
    (hnd : (entries.map Prod.fst).Nodup) (key value : String)
    (hmem : (key, value) ∈ entries) :
    getKey (buildPayload pf entries) key =
      some (if key ∈ textFieldSet then JSVal.str value else JSVal.num (pf value)) := by
  rw [getKey_buildPayload]
  have hrev : getKey entries.reverse key = some value := by
    refine getKey_of_mem_of_nodup ?_ (List.mem_reverse.mpr hmem)
    rw [List.map_reverse]
    exact List.nodup_reverse.mpr hnd
  rw [hrev]
  simp [coerceField_eq_ite]

/-- Witness for C1 at a concrete two-field form: the text field passes
through and the numeric field is parsed. -/
theorem payload_coercion_per_field_witness :
    (((([("region", "North"), ("farm_size", "12.5")] : List (String × String))).map
        Prod.fst).Nodup ∧
      ("farm_size", "12.5") ∈ ([("region", "North"), ("farm_size", "12.5")] :
        List (String × String)) ∧
      ("region", "North") ∈ ([("region", "North"), ("farm_size", "12.5")] :
        List (String × String))) ∧
    getKey (buildPayload parseFloat [("region", "North"), ("farm_size", "12.5")]) "farm_size" =
      some (if "farm_size" ∈ textFieldSet then JSVal.str "12.5"
        else JSVal.num (parseFloat "12.5")) ∧
    getKey (buildPayload parseFloat [("region", "North"), ("farm_size", "12.5")]) "region" =
      some (if "region" ∈ textFieldSet then JSVal.str "North"
        else JSVal.num (parseFloat "North")) :=
  ⟨⟨by decide, by decide, by decide⟩,
    payload_coercion_per_field parseFloat _ (by decide) "farm_size" "12.5" (by decide),
    payload_coercion_per_field parseFloat _ (by decide) "region" "North" (by decide)⟩

/-- Claim C10: with repeated field names the payload maps each name to the
coerced value of its last entry; earlier values are overwritten.  The value
the payload stores under a key is exactly the coercion of the first value
found in the reversed entry list, i.e. of the last entry with that name. -/
theorem duplicate_keys_last_wins (pf : String → JSNum) (entries : List (String × String))
    (key : String) :
    getKey (buildPayload pf entries) key =
      (getKey entries.reverse key).map (fun v => coerceField pf key v) :=
  getKey_buildPayload pf entries key

/-- Counterexample to claim C6 as stated: with the non-numeric input abc in
the numeric field farm_size, the payload does hold NaN, but the serialized
request body transmits the JSON literal null for that field — null is not a
number, so no not-a-number value reaches the wire. -/
theorem nonnumeric_field_counterexample :
    parseFloat "abc" = JSNum.nan ∧
    getKey (buildPayload parseFloat [("farm_size", "abc")]) "farm_size" =
      some (JSVal.num JSNum.nan) ∧
    serializedField (buildPayload parseFloat [("farm_size", "abc")]) "farm_size" =
      some JsonVal.null ∧
    JsonVal.null.isNumber = false ∧
    stringify (buildPayload parseFloat [("farm_size", "abc")]) =
      "\x7b\"farm_size\":null\x7d" := by
  refine ⟨by decide, by decide, by decide, rfl, ?_⟩
  with_unfolding_all rfl

/-- Claim C6 as amended: building the payload from a non-numeric value in a
numeric-coerced field raises no error and stores NaN in the payload; since
JSON has no NaN, serializing the request body transmits null for that
field. -/
theorem nonnumeric_field_nan_payload_null_body (entries : List (String × String))
    (key value : String) (hkey : key ∉ textFieldSet)
    (hlast : getKey entries.reverse key = some value)
    (hnan : parseFloat value = JSNum.nan) :
    getKey (buildPayload parseFloat entries) key = some (JSVal.num JSNum.nan) ∧
    serializedField (buildPayload parseFloat entries) key = some JsonVal.null := by
  have h := getKey_buildPayload parseFloat entries key
  rw [hlast] at h
  simp only [Option.map] at h
  rw [coerceField_eq_ite, if_neg hkey, hnan] at h
  exact ⟨h, by simp [serializedField, h, toJson]⟩

/-- Witness for the amended C6 at the concrete form entry farm_size = abc. -/
theorem nonnumeric_field_nan_payload_null_body_witness :
    ("farm_size" ∉ textFieldSet ∧
      getKey ([("farm_size", "abc")] : List (String × String)).reverse "farm_size" =
        some "abc" ∧
      parseFloat "abc" = JSNum.nan) ∧
    getKey (buildPayload parseFloat [("farm_size", "abc")]) "farm_size" =
      some (JSVal.num JSNum.nan) ∧
    serializedField (buildPayload parseFloat [("farm_size", "abc")]) "farm_size" =
      some JsonVal.null :=
  ⟨⟨by decide, by decide, by decide⟩,
    nonnumeric_field_nan_payload_null_body [("farm_size", "abc")] "farm_size" "abc"
      (by decide) (by decide) (by decide)⟩

/-- Claim C2: on a parsed response, a truthy success field routes the
predictions object to the rendering step; a falsy success field raises a
blocking alert containing the error text, never invokes rendering, and
leaves the results region hidden. -/
theorem response_success_error_dispatch (pf : String → JSNum)
    (entries : List (String × String)) (result : RespResult) (dom : DOMState) :
    (result.success = true →
      Step.renderResults result.predictions ∈
        (handleSubmit pf entries (FetchOutcome.ok result) dom).2) ∧
    (result.success = false →
      (handleSubmit pf entries (FetchOutcome.ok result) dom).1.alerts =
          dom.alerts ++ ["Error: " ++ result.error] ∧
      (∀ p, Step.renderResults p ∉ (handleSubmit pf entries (FetchOutcome.ok result) dom).2) ∧
      (handleSubmit pf entries (FetchOutcome.ok result) dom).1.resultsDisplay = "none") := by
  constructor
  · intro h
    simp [handleSubmit, h]
  · intro h
    refine ⟨by simp [handleSubmit, h], fun p => by simp [handleSubmit, h], ?_⟩
    simp [handleSubmit, h]

/-- Witness for C2 at the mocked responses of spec section 8: one truthy
success and one falsy response with error text bad input. -/
theorem response_success_error_dispatch_witness :
    (sampleSuccess.success = true ∧
      Step.renderResults samplePredictions ∈
        (handleSubmit parseFloat [] (FetchOutcome.ok sampleSuccess) initialDOM).2) ∧
    (sampleFailure.success = false ∧
      (handleSubmit parseFloat [] (FetchOutcome.ok sampleFailure) initialDOM).1.alerts =
          initialDOM.alerts ++ ["Error: " ++ "bad input"] ∧
      Step.renderResults samplePredictions ∉
        (handleSubmit parseFloat [] (FetchOutcome.ok sampleFailure) initialDOM).2 ∧
      (handleSubmit parseFloat [] (FetchOutcome.ok sampleFailure) initialDOM).1.resultsDisplay =
        "none") :=
  ⟨⟨rfl, (response_success_error_dispatch parseFloat [] sampleSuccess initialDOM).1 rfl⟩,
    rfl,
    ((response_success_error_dispatch parseFloat [] sampleFailure initialDOM).2 rfl).1,
    ((response_success_error_dispatch parseFloat [] sampleFailure initialDOM).2 rfl).2.1
      samplePredictions,
    ((response_success_error_dispatch parseFloat [] sampleFailure initialDOM).2 rfl).2.2⟩

/-- Claim C3: when the network call rejects or the body fails to parse, the
handler alerts with the generic prefix followed by the underlying error
message, and the results region stays hidden. -/
theorem transport_failure_alert (pf : String → JSNum) (entries : List (String × String))
    (emsg : String) (dom : DOMState) :
    (handleSubmit pf entries (FetchOutcome.fail emsg) dom).1.alerts =
        dom.alerts ++ ["Failed to get predictions: " ++ emsg] ∧
    (∀ p, Step.renderResults p ∉ (handleSubmit pf entries (FetchOutcome.fail emsg) dom).2) ∧
    (handleSubmit pf entries (FetchOutcome.fail emsg) dom).1.resultsDisplay = "none" := by
  refine ⟨by simp [handleSubmit], fun p => by simp [handleSubmit], by simp [handleSubmit]⟩

/-- Claim C4: on every outcome — rendering, server-reported error, or
transport failure — the loading indicator ends hidden, and hiding it is the
final step of the handler. -/
theorem loading_indicator_always_cleared (pf : String → JSNum)
    (entries : List (String × String)) (outcome : FetchOutcome) (dom : DOMState) :
    (handleSubmit pf entries outcome dom).1.loadingDisplay = "none" ∧
    (handleSubmit pf entries outcome dom).2.getLast? = some Step.hideLoading := by
  rcases outcome with result | emsg
  · by_cases h : result.success = true
    · constructor
      · simp [handleSubmit, h, displayResults]
      · simp only [handleSubmit, h, if_true]
        exact getLast_append_pair _ _ _
    · rw [Bool.not_eq_true] at h
      constructor
      · simp [handleSubmit, h]
      · simp only [handleSubmit, h, Bool.false_eq_true, if_false]
        exact getLast_append_pair _ _ _
  · constructor
    · simp [handleSubmit]
    · simp only [handleSubmit]
      exact getLast_append_pair _ _ _

/-- Claim C7: the first observable step of every handled submission is the
suppression of the event's default action, so the native full-page form
submission never occurs. -/
theorem prevent_default_first (pf : String → JSNum) (entries : List (String × String))
    (outcome : FetchOutcome) (dom : DOMState) :
    (handleSubmit pf entries outcome dom).2.head? = some Step.preventDefault := by
  rcases outcome with result | emsg
  · by_cases h : result.success = true
    · simp [handleSubmit, h]
    · rw [Bool.not_eq_true] at h
      simp [handleSubmit, h]
  · simp [handleSubmit]

/-- Claim C5: rendering writes the water and fertilizer requirements to two
decimal places and the yield to zero, replaces the tips list with one item
per tip in order, and reveals the results region; at the mocked predictions
of spec section 8 the displays read 5.68, 12.30 and 4500 and the tips list
is exactly Tip A then Tip B. -/
theorem display_results_renders :
    (∀ (p : Predictions) (dom : DOMState),
      (displayResults p dom).waterResult = p.water_requirement_mm_per_day.toFixed 2 ∧
      (displayResults p dom).fertilizerResult =
        p.fertilizer_requirement_kg_per_week.toFixed 2 ∧
      (displayResults p dom).yieldResult = p.expected_yield_kg_per_hectare.toFixed 0 ∧
      (displayResults p dom).tipsList = p.yield_optimization_tips ∧
      (displayResults p dom).resultsDisplay = "block") ∧
    (∀ dom : DOMState,
      (displayResults samplePredictions dom).waterResult = "5.68" ∧
      (displayResults samplePredictions dom).fertilizerResult = "12.30" ∧
      (displayResults samplePredictions dom).yieldResult = "4500" ∧
      (displayResults samplePredictions dom).tipsList = ["Tip A", "Tip B"] ∧
      (displayResults samplePredictions dom).resultsDisplay = "block") := by
  constructor
  · intro p dom
    refine ⟨rfl, rfl, rfl, ?_, rfl⟩
    simp [displayResults, foldl_append_singleton]
  · intro dom
    exact ⟨by with_unfolding_all rfl, by with_unfolding_all rfl, by with_unfolding_all rfl,
      by with_unfolding_all rfl, rfl⟩

/-- Claim C8: resetting restores every form field to its default value and
hides the results region, from any prior state, while touching nothing else
and issuing no request and no rendering. -/
theorem reset_form_clears_and_hides (defaults : List (String × String)) (dom : DOMState) :
    (resetForm defaults dom).1.formValues = defaults ∧
    (resetForm defaults dom).1.resultsDisplay = "none" ∧
    (∀ body, Step.fetchRequest body ∉ (resetForm defaults dom).2) ∧
    (∀ p, Step.renderResults p ∉ (resetForm defaults dom).2) ∧
    (resetForm defaults dom).1.alerts = dom.alerts ∧
    (resetForm defaults dom).1.loadingDisplay = dom.loadingDisplay := by
  refine ⟨rfl, rfl, fun body => ?_, fun p => ?_, rfl, rfl⟩ <;> simp [resetForm]

/-- Claim C9: rendering is idempotent on the tips list — whatever the list
held before, after rendering it holds exactly one item per tip, so a second
identical rendering leaves it unchanged and duplicates nothing. -/
theorem tips_render_idempotent (p : Predictions) (dom : DOMState) :
    (displayResults p dom).tipsList = p.yield_optimization_tips ∧
    (displayResults p (displayResults p dom)).tipsList = (displayResults p dom).tipsList ∧
    (displayResults p dom).tipsList.length = p.yield_optimization_tips.length := by
  simp [displayResults, foldl_append_singleton]
